import Mathlib

/-!
Shallow embedding of the music-events aggregation pipeline
(src/main.py and src/ticketmaster.py).

External collaborators (the Nominatim geocoder, geopy's geodesic distance,
the HTTP layer) are modelled as function parameters: the geocoder as a total
function returning an optional coordinate pair (the source wraps the call in
try/except and maps both an exception and a None result to "no coordinates"),
the distance computation as a function that may fail (Except), and a fetch as
a function that may fail. Machine floats are modelled as rationals.
The wall-clock field scraped_at of the emitted dicts is not modelled
(real time, irrelevant to every claim).
-/

namespace MusicEvents

/-- A (latitude, longitude) pair, floats modelled as rationals. -/
abbrev Coord := ℚ × ℚ

/-- WROCLAW_COORDS = (51.1079, 17.0385), identical in main.py and ticketmaster.py. -/
def WROCLAW_COORDS : Coord := (511079/10000, 170385/10000)

/-- MAX_DISTANCE_KM in main.py (HTML adapters). -/
def MAX_DISTANCE_KM_HTML : ℚ := 700

/-- MAX_DISTANCE_KM in ticketmaster.py (API adapter). -/
def MAX_DISTANCE_KM_TM : ℚ := 1000

/-- The external geocoding collaborator: geolocator.geocode wrapped so that
both "no match" (None) and a raised exception yield none, as the source's
try/except in get_city_coordinates does. -/
abbrev Geocoder := String → Option Coord

/-- The external geodesic-distance collaborator (geopy geodesic().kilometers);
it may raise, modelled as Except Unit. -/
abbrev Geodesic := Coord → Coord → Except Unit ℚ

/-- The canonical event record built by both adapters (the dict literal in
parse_eventim_event and in parse_events). -/
structure Event where
  title : String
  artist : String
  date_str : String
  location : String
  source : String
  ticket_link : String
  coordinates : Option Coord
  deriving Repr, DecidableEq

/-- EventScraper.get_city_coordinates: calls the geocoder; exceptions and a
None result both give None. No cache is consulted or written. -/
def get_city_coordinates (geocode : Geocoder) (city_name : String) : Option Coord :=
  geocode city_name

/-- EventScraper.is_within_range: geodesic distance to WROCLAW_COORDS compared
with MAX_DISTANCE_KM; an exception in the distance computation is caught and
the function returns False. -/
def is_within_range (dist : Geodesic) (city_coords : Coord) : Bool :=
  match dist WROCLAW_COORDS city_coords with
  | .ok d => decide (d ≤ MAX_DISTANCE_KM_HTML)
  | .error _ => false

/-- One candidate HTML element, reduced to what parse_eventim_event extracts
from it: the stripped text of the title / date / location sub-element when the
element.find call locates one, and the href of the first anchor when present. -/
structure Element where
  title_elem : Option String
  date_elem : Option String
  location_elem : Option String
  link_href : Option String
  deriving Repr, DecidableEq

/-- The ticket-link block of parse_eventim_event: empty when no anchor was
found; a relative href (leading "/") is prefixed with the source domain. -/
def resolve_ticket_link (source : String) (href : Option String) : String :=
  match href with
  | none => ""
  | some hr => if hr.startsWith "/" then "https://www." ++ source ++ hr else hr

/-- EventScraper.parse_eventim_event: best-effort field extraction with
fallback defaults, then the radius gate
`if city_coords and not self.is_within_range(city_coords): return None`,
then the dict literal. The surrounding try/except can only fire on collaborator
calls, which are already total here. -/
def parse_eventim_event (geocode : Geocoder) (dist : Geodesic)
    (element : Element) (artist source : String) : Option Event :=
  let title := (element.title_elem).getD (artist ++ " - Event")
  let date_str := (element.date_elem).getD ""
  let location := (element.location_elem).getD "Unknown"
  let ticket_link := resolve_ticket_link source element.link_href
  match get_city_coordinates geocode location with
  | some city_coords =>
      if is_within_range dist city_coords then
        some ⟨title, artist, date_str, location, source, ticket_link, some city_coords⟩
      else none
  | none => some ⟨title, artist, date_str, location, source, ticket_link, none⟩

/-- The per-artist fetch of an HTML adapter: HTTP GET plus soup.find_all.
.error is a raised exception (network failure); a non-200 response, which the
loop body silently skips, is modelled as .ok []. -/
abbrev Fetch := String → Except Unit (List Element)

/-- EventScraper.scrape_eventim_pl / scrape_eventim_de: loop over the artists;
a per-artist exception is caught and logged and the loop continues; on success
at most 5 candidate elements are parsed and the non-None results appended. -/
def scrape_eventim (fetch : Fetch) (geocode : Geocoder) (dist : Geodesic)
    (source : String) : List String → List Event
  | [] => []
  | artist :: rest =>
      (match fetch artist with
       | .error _ => []
       | .ok elements =>
           (elements.take 5).filterMap fun el =>
             parse_eventim_event geocode dist el artist source)
      ++ scrape_eventim fetch geocode dist source rest

/-- The body of the /scrape response dict (message, total_events_found,
eventim_pl, eventim_de). Note there is no ticketmaster count and no error
count of any kind. -/
structure ScrapeSummary where
  message : String
  total_events_found : Nat
  eventim_pl : Nat
  eventim_de : Nat
  deriving Repr, DecidableEq

/-- The /scrape endpoint manual_scrape: runs the three adapters in sequence
inside a single try; any exception raised by an adapter reaches the except
clause, which re-raises as HTTPException 500 with detail
"Scraping failed: {e}". Each adapter run is modelled by its outcome. -/
def manual_scrape (pl de tm : Except String (List Event)) :
    Except String ScrapeSummary :=
  match pl with
  | .error e => .error ("Scraping failed: " ++ e)
  | .ok plE =>
    match de with
    | .error e => .error ("Scraping failed: " ++ e)
    | .ok deE =>
      match tm with
      | .error e => .error ("Scraping failed: " ++ e)
      | .ok tmE =>
        .ok ⟨"Scraping completed successfully", (plE ++ deE ++ tmE).length,
             plE.length, deE.length⟩

/- ------------------------- ticketmaster.py ------------------------- -/

/-- venue["location"]: latitude / longitude entries; a missing key defaults to
0 via .get("latitude", 0); a present value is the number float() parses it to. -/
structure TMLocation where
  latitude : Option ℚ
  longitude : Option ℚ
  deriving Repr, DecidableEq

/-- One venue of the API response. -/
structure TMVenue where
  city_name : Option String
  country_code : Option String
  location : Option TMLocation
  deriving Repr, DecidableEq

/-- One event of the API response. -/
structure TMEvent where
  name : Option String
  url : Option String
  local_date : Option String
  venues : List TMVenue
  deriving Repr, DecidableEq

/-- The response body: the events list under _embedded/events when both keys
are present. -/
structure TMData where
  embedded_events : Option (List TMEvent)
  deriving Repr, DecidableEq

/-- The body of the per-event loop of TicketmasterScraper.parse_events. Inside
the try: extract name/url/date with "" defaults; with a first venue, build
"city, country"; with a location dict, parse lat/lon (missing key gives 0);
`if lat and lon` is float truthiness, i.e. both nonzero; then the distance
pre-filter skips the event beyond MAX_DISTANCE_KM, and a raised exception
(modelled: the distance call failing) hits the except and also skips it. -/
def parse_tm_event (dist : Geodesic) (artist : String) (event : TMEvent) :
    Option Event :=
  let name := (event.name).getD ""
  let url := (event.url).getD ""
  let date_str := (event.local_date).getD ""
  match event.venues with
  | [] => some ⟨name, artist, date_str, "Unknown", "ticketmaster", url, none⟩
  | venue :: _ =>
    let city := (venue.city_name).getD ""
    let country := (venue.country_code).getD ""
    let location := city ++ ", " ++ country
    match venue.location with
    | none => some ⟨name, artist, date_str, location, "ticketmaster", url, none⟩
    | some loc =>
      let lat := (loc.latitude).getD 0
      let lon := (loc.longitude).getD 0
      if lat ≠ 0 ∧ lon ≠ 0 then
        match dist WROCLAW_COORDS (lat, lon) with
        | .error _ => none
        | .ok d =>
            if MAX_DISTANCE_KM_TM < d then none
            else some ⟨name, artist, date_str, location, "ticketmaster", url,
                       some (lat, lon)⟩
      else some ⟨name, artist, date_str, location, "ticketmaster", url, none⟩

/-- TicketmasterScraper.parse_events: empty result when _embedded/events is
absent, otherwise the loop appends at most one record per response event. -/
def parse_events (dist : Geodesic) (data : TMData) (artist : String) :
    List Event :=
  match data.embedded_events with
  | none => []
  | some evs => evs.filterMap (parse_tm_event dist artist)

/-- The artist loop of TicketmasterScraper.scrape_events:
all_events.extend(search_artist_events(...)) over the artist list.
search_artist_events catches every exception, so it is a total function. -/
def collect_events (search : String → List Event) : List String → List Event
  | [] => []
  | a :: rest => search a ++ collect_events search rest

/-- TicketmasterScraper.scrape_events: `if not self.api_key: return []` —
an absent (or empty) key short-circuits before any session is opened; with a
key, opening the aiohttp session may raise (Except), then the artist loop runs. -/
def scrape_events (api_key : Option String) (mk_session : Except Unit Unit)
    (search : String → List Event) (artists : List String) :
    Except Unit (List Event) :=
  if api_key.getD "" = "" then .ok []
  else
    match mk_session with
    | .error u => .error u
    | .ok _ => .ok (collect_events search artists)

/- ---------------- instrumented geocoding (cache analysis) ---------------- -/

/-- The record of calls made to the external geocoding collaborator. -/
structure GeoCalls where
  calls : List String
  deriving Repr, DecidableEq

/-- get_city_coordinates with the collaborator invocation made observable:
the method body is a single unconditional self.geolocator.geocode(city_name) —
EventScraper has no cache field — so every call appends one invocation. -/
def get_city_coordinates_calls (geocode : Geocoder) (st : GeoCalls)
    (city_name : String) : Option Coord × GeoCalls :=
  (geocode city_name, ⟨st.calls ++ [city_name]⟩)

/- ---------------- concrete collaborators for witnesses ---------------- -/

/-- A geocoder that resolves exactly the string "Berlin". -/
def geocodeB : Geocoder := fun s => if s = "Berlin" then some (52, 13) else none

/-- A geocoder that resolves exactly the fallback string "Unknown". -/
def geocodeU : Geocoder := fun s => if s = "Unknown" then some (40, 100) else none

/-- A geocoder that resolves nothing. -/
def geocodeNone : Geocoder := fun _ => none

/-- A distance collaborator returning the constant d. -/
def distConst (d : ℚ) : Geodesic := fun _ _ => .ok d

/-- A distance collaborator that always raises. -/
def distFail : Geodesic := fun _ _ => .error ()

/-- A fetch that always raises. -/
def failFetch : Fetch := fun _ => .error ()

/- ---------------- helper lemmas ---------------- -/

/-- Any event the HTML normalizer emits with coordinates has passed
is_within_range on exactly those coordinates. -/
lemma parse_eventim_event_coords (geocode : Geocoder) (dist : Geodesic)
    (element : Element) (artist source : String) (e : Event) (c : Coord)
    (h : parse_eventim_event geocode dist element artist source = some e)
    (hc : e.coordinates = some c) :
    is_within_range dist c = true := by
  simp only [parse_eventim_event, get_city_coordinates] at h
  split at h
  next c0 hg =>
    split at h
    next hin =>
      simp only [Option.some.injEq] at h
      subst h
      dsimp only at hc
      rw [Option.some.injEq] at hc
      subst hc
      exact hin
    next hin => simp at h
  next hg =>
    simp only [Option.some.injEq] at h
    subst h
    simp at hc

/-- is_within_range true means the distance collaborator returned a value
within the HTML radius. -/
lemma is_within_range_true (dist : Geodesic) (c : Coord)
    (h : is_within_range dist c = true) :
    ∃ d, dist WROCLAW_COORDS c = .ok d ∧ d ≤ MAX_DISTANCE_KM_HTML := by
  unfold is_within_range at h
  cases hd : dist WROCLAW_COORDS c with
  | ok d =>
      rw [hd] at h
      exact ⟨d, rfl, of_decide_eq_true h⟩
  | error u =>
      rw [hd] at h
      exact absurd h (by simp)

/-- Any record emitted by the per-event body of the API parser with
coordinates present carries a distance within the API radius. -/
lemma parse_tm_event_coords (dist : Geodesic) (artist : String)
    (event : TMEvent) (e : Event) (c : Coord)
    (h : parse_tm_event dist artist event = some e)
    (hc : e.coordinates = some c) :
    ∃ d, dist WROCLAW_COORDS c = .ok d ∧ d ≤ MAX_DISTANCE_KM_TM := by
  simp only [parse_tm_event] at h
  split at h
  next =>
    simp only [Option.some.injEq] at h
    subst h
    simp at hc
  next venue rest =>
    split at h
    next =>
      simp only [Option.some.injEq] at h
      subst h
      simp at hc
    next loc =>
      split at h
      next hz =>
        split at h
        next => simp at h
        next d hd =>
          split at h
          next => simp at h
          next hfar =>
            simp only [Option.some.injEq] at h
            subst h
            dsimp only at hc
            rw [Option.some.injEq] at hc
            subst hc
            exact ⟨d, hd, le_of_not_lt hfar⟩
      next hz =>
        simp only [Option.some.injEq] at h
        subst h
        simp at hc

/- ---------------- claim theorems ---------------- -/

/-- C1: every Event emitted by the pipeline with coordinates present has
great-circle distance from (51.1079, 17.0385) to those coordinates at most
the radius of its source: 700 km for the HTML adapters (parse_eventim_event),
1000 km for the API adapter (parse_events). -/
theorem C1_distance_filter :
    (∀ (geocode : Geocoder) (dist : Geodesic) (element : Element)
        (artist source : String) (e : Event) (c : Coord),
      parse_eventim_event geocode dist element artist source = some e →
      e.coordinates = some c →
      ∃ d, dist WROCLAW_COORDS c = .ok d ∧ d ≤ MAX_DISTANCE_KM_HTML)
    ∧ (∀ (dist : Geodesic) (data : TMData) (artist : String) (e : Event) (c : Coord),
      e ∈ parse_events dist data artist →
      e.coordinates = some c →
      ∃ d, dist WROCLAW_COORDS c = .ok d ∧ d ≤ MAX_DISTANCE_KM_TM) := by
  constructor
  · intro geocode dist element artist source e c h hc
    exact is_within_range_true dist c
      (parse_eventim_event_coords geocode dist element artist source e c h hc)
  · intro dist data artist e c h hc
    unfold parse_events at h
    cases hemb : data.embedded_events with
    | none => rw [hemb] at h; simp at h
    | some evs =>
        rw [hemb] at h
        rw [List.mem_filterMap] at h
        obtain ⟨ev, _, hev⟩ := h
        exact parse_tm_event_coords dist artist ev e c hev hc

/-- C1 witness: both halves applied at concrete inputs. -/
theorem C1_distance_filter_check :
    (∃ d, distConst 300 WROCLAW_COORDS ((52 : ℚ), (13 : ℚ)) = .ok d ∧ d ≤ MAX_DISTANCE_KM_HTML)
    ∧ (∃ d, distConst 900 WROCLAW_COORDS ((52 : ℚ), (13 : ℚ)) = .ok d ∧ d ≤ MAX_DISTANCE_KM_TM) :=
  ⟨C1_distance_filter.1 geocodeB (distConst 300) ⟨none, none, some "Berlin", none⟩
      "DJ" "eventim.pl"
      ⟨"DJ - Event", "DJ", "", "Berlin", "eventim.pl", "", some (52, 13)⟩ (52, 13)
      (by decide) rfl,
   C1_distance_filter.2 (distConst 900)
      ⟨some [⟨some "Show", some "u", some "2025-01-01",
             [⟨some "Berlin", some "DE", some ⟨some 52, some 13⟩⟩]⟩]⟩
      "DJ"
      ⟨"Show", "DJ", "2025-01-01", "Berlin, DE", "ticketmaster", "u", some (52, 13)⟩
      (52, 13) (by decide) rfl⟩

/-- C6: with an absent API key, scrape_events returns the empty list for every
artist list, every session outcome and every search behaviour — it returns
.ok [] (no exception outcome is possible). -/
theorem C6_no_api_key :
    ∀ (mk_session : Except Unit Unit) (search : String → List Event)
      (artists : List String),
      scrape_events none mk_session search artists = .ok [] := by
  intro mk_session search artists
  rfl

/-- A failing distance computation makes is_within_range return false (the
except clause at main.py:74-75), i.e. "out of range", not "unknown". -/
lemma is_within_range_of_error (dist : Geodesic) (c : Coord)
    (h : dist WROCLAW_COORDS c = .error ()) : is_within_range dist c = false := by
  simp [is_within_range, h]

/-- Every record the API per-event body emits takes its title verbatim from
the response name, defaulting to the empty string. -/
lemma parse_tm_event_title (dist : Geodesic) (artist : String) (ev : TMEvent)
    (e : Event) (h : parse_tm_event dist artist ev = some e) :
    e.title = (ev.name).getD "" := by
  simp only [parse_tm_event] at h
  split at h
  next =>
    simp only [Option.some.injEq] at h
    subst h
    rfl
  next venue rest =>
    split at h
    next =>
      simp only [Option.some.injEq] at h
      subst h
      rfl
    next loc =>
      split at h
      next hz =>
        split at h
        next => simp at h
        next d hd =>
          split at h
          next => simp at h
          next hfar =>
            simp only [Option.some.injEq] at h
            subst h
            rfl
      next hz =>
        simp only [Option.some.injEq] at h
        subst h
        rfl

/-- C2 counterexample: if the first HTML adapter raises on fetch, the run does
not complete with an aggregate result at all — the second adapter's event is
lost and /scrape raises HTTPException 500, even though orchestrator setup
succeeded. -/
theorem C2_isolation_counterexample :
    manual_scrape (.error "fetch failed")
        (.ok [⟨"X", "DJ", "", "Berlin, DE", "eventim.de", "", none⟩]) (.ok [])
      = .error "Scraping failed: fetch failed" := rfl

/-- C2 amended: failure isolation exists only per artist inside each adapter,
not per adapter in the orchestrator. (1) an adapter-level exception aborts the
whole run with a single "Scraping failed" error; (2) within an HTML adapter, an
artist whose fetch raises contributes nothing while the remaining artists are
still processed; (3) an all-successful run returns a summary with counts for
the two HTML sources only and no error counts of any kind. -/
theorem C2_isolation_amended :
    (∀ (e : String) (de tm : Except String (List Event)),
        manual_scrape (.error e) de tm = .error ("Scraping failed: " ++ e))
    ∧ (∀ (fetch : Fetch) (geocode : Geocoder) (dist : Geodesic)
        (source : String) (a : String) (rest : List String),
        fetch a = .error () →
        scrape_eventim fetch geocode dist source (a :: rest)
          = scrape_eventim fetch geocode dist source rest)
    ∧ (∀ plE deE tmE : List Event,
        manual_scrape (.ok plE) (.ok deE) (.ok tmE)
          = .ok ⟨"Scraping completed successfully", (plE ++ deE ++ tmE).length,
                 plE.length, deE.length⟩) := by
  refine ⟨fun e de tm => rfl, ?_, fun plE deE tmE => rfl⟩
  intro fetch geocode dist source a rest h
  simp [scrape_eventim, h]

/-- C2 amended, applied: a concrete erroring adapter, a concrete erroring
artist inside an adapter, and a concrete all-successful run. -/
theorem C2_isolation_amended_check :
    (manual_scrape (.error "boom") (.ok []) (.ok [])
        = .error ("Scraping failed: " ++ "boom"))
    ∧ (scrape_eventim failFetch geocodeNone distFail "eventim.pl" ["DJ"]
        = scrape_eventim failFetch geocodeNone distFail "eventim.pl" [])
    ∧ (manual_scrape (.ok []) (.ok []) (.ok [])
        = .ok ⟨"Scraping completed successfully", 0, 0, 0⟩) :=
  ⟨C2_isolation_amended.1 "boom" (.ok []) (.ok []),
   C2_isolation_amended.2.1 failFetch geocodeNone distFail "eventim.pl" "DJ" [] rfl,
   C2_isolation_amended.2.2 [] [] []⟩

/-- C3 counterexample: an HTML payload whose location geocodes successfully
but whose distance computation raises is dropped (parse returns None), not
kept under the coordinates-absent policy. -/
theorem C3_distance_failure_counterexample :
    parse_eventim_event geocodeB distFail
        ⟨some "Show", some "2025", some "Berlin", none⟩ "DJ" "eventim.pl"
      = none := rfl

/-- C3 amended: a distance-computation failure is treated as out of range —
is_within_range returns false, and an HTML payload whose location resolved to
coordinates on which the distance computation raises is dropped. -/
theorem C3_distance_failure_amended :
    (∀ (dist : Geodesic) (c : Coord), dist WROCLAW_COORDS c = .error () →
        is_within_range dist c = false)
    ∧ (∀ (geocode : Geocoder) (dist : Geodesic) (element : Element)
        (artist source : String) (c : Coord),
        geocode ((element.location_elem).getD "Unknown") = some c →
        dist WROCLAW_COORDS c = .error () →
        parse_eventim_event geocode dist element artist source = none) := by
  refine ⟨is_within_range_of_error, ?_⟩
  intro geocode dist element artist source c hg hd
  simp [parse_eventim_event, get_city_coordinates, hg,
        is_within_range_of_error dist c hd]

/-- C3 amended, applied: a raising distance collaborator on resolved Berlin
coordinates drops the event. -/
theorem C3_distance_failure_amended_check :
    is_within_range distFail (1, 2) = false
    ∧ parse_eventim_event geocodeB distFail ⟨none, none, some "Berlin", none⟩
        "A" "eventim.de" = none :=
  ⟨C3_distance_failure_amended.1 distFail (1, 2) rfl,
   C3_distance_failure_amended.2 geocodeB distFail
     ⟨none, none, some "Berlin", none⟩ "A" "eventim.de" (52, 13) (by decide) rfl⟩

/-- C4 counterexample: an API event with no name is emitted with an empty
title — not the "{artist} - Event" fallback, which only the HTML parser has. -/
theorem C4_title_counterexample :
    (parse_events (distConst 0) ⟨some [⟨none, none, none, []⟩]⟩ "DJ").map
        Event.title = [""]
    ∧ ("" : String) ≠ "DJ - Event" := ⟨rfl, by decide⟩

/-- C4 amended: only the HTML parser applies the non-empty fallback
"{artist} - Event" (exactly when the title sub-element is missing); the API
parser copies the response name verbatim, defaulting to the empty string, so
its emitted titles can be empty. -/
theorem C4_title_amended :
    (∀ (geocode : Geocoder) (dist : Geodesic) (element : Element)
        (artist source : String) (e : Event),
        parse_eventim_event geocode dist element artist source = some e →
        e.title = (element.title_elem).getD (artist ++ " - Event"))
    ∧ (∀ artist : String, artist ++ " - Event" ≠ "")
    ∧ (∀ (dist : Geodesic) (artist : String) (ev : TMEvent) (e : Event),
        parse_tm_event dist artist ev = some e →
        e.title = (ev.name).getD "") := by
  refine ⟨?_, ?_, parse_tm_event_title⟩
  · intro geocode dist element artist source e h
    simp only [parse_eventim_event, get_city_coordinates] at h
    split at h
    next c0 hg =>
      split at h
      next hin =>
        simp only [Option.some.injEq] at h
        subst h
        rfl
      next hin => simp at h
    next hg =>
      simp only [Option.some.injEq] at h
      subst h
      rfl
  · intro artist h
    have h2 := congrArg String.length h
    rw [String.length_append] at h2
    have e1 : (" - Event" : String).length = 8 := rfl
    have e2 : ("" : String).length = 0 := rfl
    omega

/-- C4 amended, applied: HTML parse of a title-less element uses the fallback,
the fallback is non-empty, and an API parse of a name-less event has title "". -/
theorem C4_title_amended_check :
    (Event.title ⟨"DJ - Event", "DJ", "", "Unknown", "eventim.pl", "", none⟩
        = (Option.getD (α := String) none ("DJ" ++ " - Event")))
    ∧ ("DJ" ++ " - Event" ≠ "")
    ∧ (Event.title ⟨"", "DJ", "", "Unknown", "ticketmaster", "", none⟩
        = (Option.getD (α := String) none "")) :=
  ⟨C4_title_amended.1 geocodeNone (distConst 0) ⟨none, none, none, none⟩
      "DJ" "eventim.pl" ⟨"DJ - Event", "DJ", "", "Unknown", "eventim.pl", "", none⟩
      (by decide),
   C4_title_amended.2.1 "DJ",
   C4_title_amended.2.2 (distConst 0) "DJ" ⟨none, none, none, []⟩
      ⟨"", "DJ", "", "Unknown", "ticketmaster", "", none⟩ (by decide)⟩

/-- C5 counterexample: an API event with a venue (city "Berlin", country "DE")
whose coordinates are absent is emitted with location "Berlin, DE" and no
coordinates — the location is not the claimed "Unknown". -/
theorem C5_unknown_location_counterexample :
    (parse_events (distConst 0)
        ⟨some [⟨some "Show", some "u", some "2025-01-01",
               [⟨some "Berlin", some "DE", none⟩]⟩]⟩ "DJ").map
        (fun e => (e.location, e.coordinates))
      = [("Berlin, DE", none)]
    ∧ ("Berlin, DE" : String) ≠ "Unknown" := ⟨rfl, by decide⟩

/-- C5 amended: location defaults to "Unknown" (with coordinates absent) only
when the venues list is empty; with a venue present whose location field is
absent, the event is emitted unfiltered with location "city, country" and
coordinates absent. -/
theorem C5_unknown_location_amended :
    (∀ (dist : Geodesic) (artist : String) (ev : TMEvent),
        ev.venues = [] →
        parse_tm_event dist artist ev =
          some ⟨(ev.name).getD "", artist, (ev.local_date).getD "", "Unknown",
                "ticketmaster", (ev.url).getD "", none⟩)
    ∧ (∀ (dist : Geodesic) (artist : String) (ev : TMEvent) (venue : TMVenue)
        (rest : List TMVenue),
        ev.venues = venue :: rest →
        venue.location = none →
        parse_tm_event dist artist ev =
          some ⟨(ev.name).getD "", artist, (ev.local_date).getD "",
                (venue.city_name).getD "" ++ ", " ++ (venue.country_code).getD "",
                "ticketmaster", (ev.url).getD "", none⟩) := by
  constructor
  · intro dist artist ev hv
    simp [parse_tm_event, hv]
  · intro dist artist ev venue rest hv hl
    simp [parse_tm_event, hv, hl]

/-- C5 amended, applied at a venue-less event and at a coordinate-less venue. -/
theorem C5_unknown_location_amended_check :
    parse_tm_event (distConst 0) "DJ" ⟨some "S", some "u", some "d", []⟩
      = some ⟨"S", "DJ", "d", "Unknown", "ticketmaster", "u", none⟩
    ∧ parse_tm_event (distConst 0) "DJ"
        ⟨some "S", some "u", some "d", [⟨some "Praha", some "CZ", none⟩]⟩
      = some ⟨"S", "DJ", "d", "Praha, CZ", "ticketmaster", "u", none⟩ :=
  ⟨C5_unknown_location_amended.1 (distConst 0) "DJ"
      ⟨some "S", some "u", some "d", []⟩ rfl,
   C5_unknown_location_amended.2 (distConst 0) "DJ"
      ⟨some "S", some "u", some "d", [⟨some "Praha", some "CZ", none⟩]⟩
      ⟨some "Praha", some "CZ", none⟩ [] rfl rfl⟩

/-- C6, applied: key-less scrape over a concrete artist list is .ok []. -/
theorem C6_no_api_key_check :
    scrape_events none (.ok ()) (fun _ => []) ["DJ", "Fisher"] = .ok [] :=
  C6_no_api_key (.ok ()) (fun _ => []) ["DJ", "Fisher"]

/-- C7 counterexample: an HTML element missing every optional sub-element does
NOT always normalize: with a geocoder that resolves the fallback string
"Unknown" to coordinates out of range, the element is dropped. -/
theorem C7_defaults_counterexample :
    parse_eventim_event geocodeU (distConst 800) ⟨none, none, none, none⟩
        "DJ" "eventim.pl" = none := rfl

/-- C7 amended: an element missing every optional sub-element normalizes to an
Event with the documented defaults provided the geocoder does not resolve the
fallback location "Unknown" (or resolves it within range); otherwise the
radius gate drops it. -/
theorem C7_defaults_amended :
    (∀ (geocode : Geocoder) (dist : Geodesic) (element : Element)
        (artist source : String),
        element.title_elem = none → element.date_elem = none →
        element.location_elem = none → element.link_href = none →
        geocode "Unknown" = none →
        parse_eventim_event geocode dist element artist source =
          some ⟨artist ++ " - Event", artist, "", "Unknown", source, "", none⟩)
    ∧ (∀ (geocode : Geocoder) (dist : Geodesic) (element : Element)
        (artist source : String) (c : Coord),
        element.title_elem = none → element.date_elem = none →
        element.location_elem = none → element.link_href = none →
        geocode "Unknown" = some c → is_within_range dist c = true →
        parse_eventim_event geocode dist element artist source =
          some ⟨artist ++ " - Event", artist, "", "Unknown", source, "", some c⟩) := by
  constructor
  · intro geocode dist element artist source h1 h2 h3 h4 hg
    simp [parse_eventim_event, get_city_coordinates, resolve_ticket_link,
          h1, h2, h3, h4, hg]
  · intro geocode dist element artist source c h1 h2 h3 h4 hg hin
    simp [parse_eventim_event, get_city_coordinates, resolve_ticket_link,
          h1, h2, h3, h4, hg, hin]

/-- C7 amended, applied with a geocoder that fails on "Unknown" and with one
that resolves it to in-range coordinates. -/
theorem C7_defaults_amended_check :
    parse_eventim_event geocodeNone (distConst 0) ⟨none, none, none, none⟩
        "DJ" "eventim.pl"
      = some ⟨"DJ" ++ " - Event", "DJ", "", "Unknown", "eventim.pl", "", none⟩
    ∧ parse_eventim_event geocodeU (distConst 100) ⟨none, none, none, none⟩
        "DJ" "eventim.de"
      = some ⟨"DJ" ++ " - Event", "DJ", "", "Unknown", "eventim.de", "",
              some (40, 100)⟩ :=
  ⟨C7_defaults_amended.1 geocodeNone (distConst 0) ⟨none, none, none, none⟩
      "DJ" "eventim.pl" rfl rfl rfl rfl rfl,
   C7_defaults_amended.2 geocodeU (distConst 100) ⟨none, none, none, none⟩
      "DJ" "eventim.de" (40, 100) rfl rfl rfl rfl (by decide) (by decide)⟩

/-- C8 counterexample: two resolutions of the exact same place name invoke the
external geocoding collaborator twice — there is no cache in
get_city_coordinates. -/
theorem C8_cache_counterexample :
    ((get_city_coordinates_calls geocodeB
        (get_city_coordinates_calls geocodeB ⟨[]⟩ "Berlin").2 "Berlin").2).calls
      = ["Berlin", "Berlin"] := rfl

/-- C8 amended: get_city_coordinates keeps no cache — every call, repeated or
not, invokes the geocoding collaborator exactly once more; the repeated call
does return the same result, but only because the collaborator is consulted
again. -/
theorem C8_cache_amended :
    ∀ (geocode : Geocoder) (st : GeoCalls) (p : String),
      (get_city_coordinates_calls geocode st p).1 = get_city_coordinates geocode p
      ∧ (get_city_coordinates_calls geocode st p).2.calls = st.calls ++ [p]
      ∧ (get_city_coordinates_calls geocode
            (get_city_coordinates_calls geocode st p).2 p).1
          = (get_city_coordinates_calls geocode st p).1 :=
  fun _ _ _ => ⟨rfl, rfl, rfl⟩

/-- C8 amended, applied at a concrete geocoder and place name. -/
theorem C8_cache_amended_check :
    (get_city_coordinates_calls geocodeB ⟨[]⟩ "Berlin").1
        = get_city_coordinates geocodeB "Berlin"
    ∧ (get_city_coordinates_calls geocodeB ⟨[]⟩ "Berlin").2.calls
        = [] ++ ["Berlin"]
    ∧ (get_city_coordinates_calls geocodeB
          (get_city_coordinates_calls geocodeB ⟨[]⟩ "Berlin").2 "Berlin").1
        = (get_city_coordinates_calls geocodeB ⟨[]⟩ "Berlin").1 :=
  C8_cache_amended geocodeB ⟨[]⟩ "Berlin"

/-- C9: a venue whose latitude or longitude is missing (default 0) or equals
0.0 fails the float-truthiness test `if lat and lon`, so the event is emitted
with coordinates absent, no distance pre-filter applies, and the result does
not depend on the distance collaborator at all. -/
theorem C9_zero_coordinates :
    ∀ (distA distB : Geodesic) (artist : String) (ev : TMEvent)
      (venue : TMVenue) (rest : List TMVenue) (loc : TMLocation),
      ev.venues = venue :: rest → venue.location = some loc →
      ((loc.latitude).getD 0 = 0 ∨ (loc.longitude).getD 0 = 0) →
      parse_tm_event distA artist ev =
        some ⟨(ev.name).getD "", artist, (ev.local_date).getD "",
              (venue.city_name).getD "" ++ ", " ++ (venue.country_code).getD "",
              "ticketmaster", (ev.url).getD "", none⟩
      ∧ parse_tm_event distA artist ev = parse_tm_event distB artist ev := by
  intro distA distB artist ev venue rest loc hv hl hz
  have hcond : ¬((loc.latitude).getD 0 ≠ 0 ∧ (loc.longitude).getD 0 ≠ 0) := by
    tauto
  constructor
  · simp [parse_tm_event, hv, hl, hcond]
  · simp [parse_tm_event, hv, hl, hcond]

/-- C9, applied: a venue at latitude 0 with a distance collaborator that would
exclude everything is still emitted, coordinate-free, identically to a run
with a collaborator that excludes nothing. -/
theorem C9_zero_coordinates_check :
    parse_tm_event (distConst 5000) "DJ"
        ⟨some "S", some "u", some "d", [⟨some "Accra", some "GH",
            some ⟨some 0, some 13⟩⟩]⟩
      = some ⟨"S", "DJ", "d", "Accra, GH", "ticketmaster", "u", none⟩
    ∧ parse_tm_event (distConst 5000) "DJ"
        ⟨some "S", some "u", some "d", [⟨some "Accra", some "GH",
            some ⟨some 0, some 13⟩⟩]⟩
      = parse_tm_event (distConst 0) "DJ"
          ⟨some "S", some "u", some "d", [⟨some "Accra", some "GH",
              some ⟨some 0, some 13⟩⟩]⟩ :=
  C9_zero_coordinates (distConst 5000) (distConst 0) "DJ"
    ⟨some "S", some "u", some "d", [⟨some "Accra", some "GH", some ⟨some 0, some 13⟩⟩]⟩
    ⟨some "Accra", some "GH", some ⟨some 0, some 13⟩⟩ []
    ⟨some 0, some 13⟩ rfl rfl (Or.inl (by decide))

/-- C10: when the location sub-element is missing, the fallback string
"Unknown" itself is geocoded; if it resolves to coordinates for which
is_within_range is false — in particular whenever the computed distance
exceeds 700 km — the element is dropped despite its location being only the
fallback default. -/
theorem C10_unknown_geocoded_far :
    (∀ (dist : Geodesic) (c : Coord) (d : ℚ),
        dist WROCLAW_COORDS c = .ok d → MAX_DISTANCE_KM_HTML < d →
        is_within_range dist c = false)
    ∧ (∀ (geocode : Geocoder) (dist : Geodesic) (element : Element)
        (artist source : String) (c : Coord),
        element.location_elem = none →
        geocode "Unknown" = some c →
        is_within_range dist c = false →
        parse_eventim_event geocode dist element artist source = none) := by
  constructor
  · intro dist c d hd hfar
    simp only [is_within_range, hd]
    exact decide_eq_false (not_le.mpr hfar)
  · intro geocode dist element artist source c hloc hg hfar
    simp [parse_eventim_event, get_city_coordinates, hloc, hg, hfar]

/-- C10, applied: a geocoder that resolves "Unknown" to a point reported
800 km away drops a location-less element. -/
theorem C10_unknown_geocoded_far_check :
    is_within_range (distConst 800) (40, 100) = false
    ∧ parse_eventim_event geocodeU (distConst 800)
        ⟨some "S", some "d", none, none⟩ "A" "eventim.de" = none :=
  ⟨C10_unknown_geocoded_far.1 (distConst 800) (40, 100) 800 rfl (by decide),
   C10_unknown_geocoded_far.2 geocodeU (distConst 800)
      ⟨some "S", some "d", none, none⟩ "A" "eventim.de" (40, 100)
      rfl (by decide)
      (C10_unknown_geocoded_far.1 (distConst 800) (40, 100) 800 rfl (by decide))⟩

end MusicEvents
